import Mathlib

/-!
Verification of the Vectorize tool layer of the `mcp-server-cloudflare`
repository.

The development shallowly embeds the two source files that carry the
behaviour under scrutiny:

* `src/packages/mcp-common/src/tools/vectorize.ts` — the ten tool handlers
  (`vectorize_index_create`, `_list`, `_get`, `_delete`, `_info`, `_insert`,
  `_upsert`, `_query`, `_get_by_ids`, `_delete_by_ids`).  Each handler is an
  `async` try/catch block: resolve the active account, short-circuit on a
  falsy account id, build the remote request, await exactly one remote call,
  and map the result (or the caught thrown value) to a single-text-block
  envelope.  Handlers here are total functions from validated parameters and
  a per-call environment (the outcomes of the three fallible collaborator
  steps: account resolution, client construction, the remote call) to the
  returned envelope, paired with an observation of whether the remote client
  was invoked.
* `src/packages/mcp-common/src/types/vectorize.ts` — the zod parameter
  schemas, embedded as total parse functions over a model of JavaScript
  values.

JavaScript numbers are modelled as rationals (`ℚ`): zod's `.int()` check is
`den = 1`, `.positive()` is `0 < q`.  `NaN`/`-0` do not occur in any input
the claims touch and are not modelled.  `JSON.stringify` is modelled by
`stringify`; its rendering of non-integer numbers and of a top-level
`undefined` (where the real `JSON.stringify` yields no string at all) are
modelling artifacts that no theorem below relies on.
-/

namespace McpVectorize

/-- Model of a JavaScript value as the handlers and schemas observe it:
`undef` is `undefined`, `null` is `null`; objects are ordered field lists. -/
inductive JSValue where
  | undef
  | null
  | bool (b : Bool)
  | num (q : ℚ)
  | str (s : String)
  | arr (elems : List JSValue)
  | obj (fields : List (String × JSValue))

/-- Property read `fields[k]` on a JavaScript object: the first binding of
the key, `undefined` when the key is absent. -/
def jsGet (fields : List (String × JSValue)) (k : String) : JSValue :=
  match fields.find? (fun p => p.1 == k) with
  | some p => p.2
  | none => JSValue.undef

/-- The `typeof`-style type name zod reports for a received value. -/
def typeNameOf : JSValue → String
  | .undef => "undefined"
  | .null => "null"
  | .bool _ => "boolean"
  | .num _ => "number"
  | .str _ => "string"
  | .arr _ => "array"
  | .obj _ => "object"

/-- JavaScript truthiness test, negated: `!v`.  (`NaN` is not modelled.) -/
def jsFalsy : JSValue → Bool
  | .undef => true
  | .null => true
  | .bool b => !b
  | .num q => q == 0
  | .str s => s == ""
  | .arr _ => false
  | .obj _ => false

/-- `v === null || v === undefined`, the test used by `get_by_ids` and by
the `??` operator. -/
def isNullish : JSValue → Bool
  | .undef => true
  | .null => true
  | _ => false

/-- The JavaScript nullish-coalescing operator `v ?? fallback`. -/
def nullishCoalesce (v fallback : JSValue) : JSValue :=
  match v with
  | .undef => fallback
  | .null => fallback
  | w => w

/-- JSON string escaping for the characters that can occur in the strings of
this development (JS additionally escapes other control characters). -/
def escapeChar (c : Char) : String :=
  if c = '"' then "\\\"" else if c = '\\' then "\\\\"
  else if c = '\n' then "\\n" else if c = '\t' then "\\t" else if c = '\r' then "\\r"
  else String.singleton c

/-- The JSON serialization of a string, `"..."` with escapes. -/
def quoteJson (s : String) : String :=
  "\"" ++ String.join (s.data.map escapeChar) ++ "\""

/-- Rendering of a number.  All numbers serialized by any theorem below are
integers, on which this agrees with JavaScript. -/
def ratRepr (q : ℚ) : String :=
  if q.den = 1 then toString q.num else toString q.num ++ "/" ++ toString q.den

mutual

/-- Model of `JSON.stringify`: object members with `undefined` values are
skipped, `undefined` array elements serialize as `null`.  (A top-level
`undefined`, on which the real `JSON.stringify` returns no string, renders
as a placeholder that no theorem relies on.) -/
def stringify : JSValue → String
  | .undef => "undefined"
  | .null => "null"
  | .bool b => cond b ("true") ("false")
  | .num q => ratRepr q
  | .str s => quoteJson s
  | .arr xs => "[" ++ String.intercalate (",") (stringifyElems xs) ++ "]"
  | .obj fs => "\x7b" ++ String.intercalate (",") (stringifyMembers fs) ++ "\x7d"

/-- Serializations of the elements of a JSON array. -/
def stringifyElems : List JSValue → List String
  | [] => []
  | v :: vs =>
    (match v with
     | .undef => "null"
     | w => stringify w) :: stringifyElems vs

/-- Serializations of the members of a JSON object (skipping `undefined`). -/
def stringifyMembers : List (String × JSValue) → List String
  | [] => []
  | (_, .undef) :: fs => stringifyMembers fs
  | (k, v) :: fs => (quoteJson k ++ ":" ++ stringify v) :: stringifyMembers fs

end

/-- One `{type, text}` block of a tool response. -/
structure TextContent where
  type : String
  text : String
deriving DecidableEq, Repr

/-- The uniform tool-response envelope `{content: [...]}`. -/
structure Envelope where
  content : List TextContent
deriving DecidableEq, Repr

/-- The `{content: [{type: 'text', text: t}]}` envelope every handler
builds. -/
def textEnvelope (t : String) : Envelope :=
  Envelope.mk [TextContent.mk ("text") t]

/-- An envelope is well formed when it is a single block of type text. -/
def envelopeWellFormed (e : Envelope) : Bool :=
  match e.content with
  | [c] => c.type == "text"
  | _ => false

/-- A JavaScript thrown value as the catch branches inspect it:
`error instanceof Error` carrying its `.message`, or any other thrown value
carrying its `String(error)` coercion. -/
inductive ThrownValue where
  | errorInstance (message : String)
  | nonErrorValue (stringCoercion : String)
deriving DecidableEq, Repr

/-- The catch branches' description of a thrown value:
`error instanceof Error ? error.message : String(error)`. -/
def describeError : ThrownValue → String
  | .errorInstance m => m
  | .nonErrorValue s => s

/-- Modelled from the spec: `MISSING_ACCOUNT_ID_RESPONSE`, imported by the
tool file from the shared `constants` module which is not among the provided
sources.  The spec says only that it is a well-known fixed "missing account"
envelope returned verbatim; the claims use it as an opaque fixed value. -/
def MISSING_ACCOUNT_ID_RESPONSE : Envelope :=
  textEnvelope ("No currently active accountId. Ask the user to set an active account first.")

/-- The JavaScript falsiness test `!account_id` applied to the account
resolver's result (`undefined`/`null` are merged into `none`; the empty
string is also falsy). -/
def accountFalsy : Option String → Bool
  | none => true
  | some s => s == ""

/-- The per-call environment: the outcomes of the three fallible awaited
collaborator steps of a handler, in the order the handler performs them —
`agent.getActiveAccountId()`, `getCloudflareClient(...)`, and the single
remote `client.vectorize.indexes.*` call.  An `error` is a thrown value. -/
structure Env where
  accountOutcome : Except ThrownValue (Option String)
  clientOutcome : Except ThrownValue Unit
  remoteOutcome : Except ThrownValue JSValue

/-- The first fault a handler run over `env` encounters, if any: a fault at
account resolution; otherwise, unless the run short-circuits on a falsy
account, a fault at client construction; otherwise a fault at the remote
call. -/
def envFault (env : Env) : Option ThrownValue :=
  match env.accountOutcome with
  | .error e => some e
  | .ok a =>
    if accountFalsy a then none
    else
      match env.clientOutcome with
      | .error e => some e
      | .ok _ =>
        match env.remoteOutcome with
        | .error e => some e
        | .ok _ => none

/-- An optional-and-nullable JavaScript argument slot. -/
inductive JSOpt (α : Type) where
  | undef
  | null
  | val (a : α)
deriving DecidableEq, Repr

/-- The `x ?? undefined` normalization the list handler applies to each
pagination field. -/
def jsOrUndef {α : Type} : JSOpt α → JSOpt α
  | .undef => JSOpt.undef
  | .null => JSOpt.undef
  | .val a => JSOpt.val a

/-- Whether a slot holds an explicit `null`. -/
def JSOpt.isExplicitNull {α : Type} : JSOpt α → Bool
  | .null => true
  | _ => false

/-- Validated parameters of `vectorize_index_create`. -/
structure CreateParams where
  name : String
  config : JSValue
  description : Option String

/-- Validated parameters of `vectorize_index_list`. -/
structure VectorizeListParams where
  page : JSOpt ℚ
  per_page : JSOpt ℚ
  order : JSOpt String
  direction : JSOpt String

/-- Validated parameters of `vectorize_index_insert` / `_upsert`. -/
structure InsertParams where
  name : String
  vectors_ndjson : String
  unparsable_behavior : Option String

/-- Validated parameters of `vectorize_index_query`. -/
structure QueryParams where
  name : String
  vector : List ℚ
  filter : Option JSValue
  return_metadata : Option String
  return_values : Option Bool
  top_k : Option ℚ

/-- Validated parameters of `vectorize_index_get_by_ids` / `_delete_by_ids`. -/
structure IdsParams where
  name : String
  ids : List String

/-- The `query` object the list handler passes to the remote list call. -/
structure ListQuery where
  page : JSOpt ℚ
  per_page : JSOpt ℚ
  order : JSOpt String
  direction : JSOpt String
deriving DecidableEq, Repr

/-- The query object built by the list handler:
`{page: page ?? undefined, per_page: per_page ?? undefined, order: order ??
undefined, direction: direction ?? undefined}`. -/
def buildListQuery (p : VectorizeListParams) : ListQuery :=
  ListQuery.mk (jsOrUndef p.page) (jsOrUndef p.per_page) (jsOrUndef p.order)
    (jsOrUndef p.direction)

/-- Message head of the create handler's catch branch. -/
def createErrorLead : String := "Error creating Vectorize Index: "

/-- Message head of the list handler's catch branch. -/
def listErrorLead : String := "Error listing Vectorize Indexes: "

/-- Message head of the get handler's catch branch. -/
def getErrorLead (name : String) : String :=
  "Error getting Vectorize Index \"" ++ name ++ "\": "

/-- Message head of the delete handler's catch branch. -/
def deleteErrorLead (name : String) : String :=
  "Error deleting Vectorize Index \"" ++ name ++ "\": "

/-- Message head of the info handler's catch branch. -/
def infoErrorLead (name : String) : String :=
  "Error getting info for Vectorize Index \"" ++ name ++ "\": "

/-- Message head of the insert handler's catch branch. -/
def insertErrorLead (name : String) : String :=
  "Error inserting vectors into Vectorize Index \"" ++ name ++ "\": "

/-- Message head of the upsert handler's catch branch. -/
def upsertErrorLead (name : String) : String :=
  "Error upserting vectors into Vectorize Index \"" ++ name ++ "\": "

/-- Message head of the query handler's catch branch. -/
def queryErrorLead (name : String) : String :=
  "Error querying Vectorize Index \"" ++ name ++ "\": "

/-- Message head of the get-by-ids handler's catch branch. -/
def getByIdsErrorLead (name : String) : String :=
  "Error getting vectors by ID from Vectorize Index \"" ++ name ++ "\": "

/-- Message head of the delete-by-ids handler's catch branch. -/
def deleteByIdsErrorLead (name : String) : String :=
  "Error deleting vectors by ID from Vectorize Index \"" ++ name ++ "\": "

/-- The get handler's not-found message. -/
def getNotFoundText (name : String) : String :=
  "Error: Vectorize Index \"" ++ name ++ "\" not found."

/-- The get-by-ids handler's not-found message. -/
def getByIdsNotFoundText (name : String) : String :=
  "Error: No vectors found for the provided IDs in index \"" ++ name ++ "\"."

/-- The info handler's fallback sentence for a nullish remote result. -/
def infoFallbackText (name : String) : String :=
  "Could not retrieve info for index \"" ++ name ++ "\"."

/-- Handler of the `vectorize_index_create` tool.  Returns the envelope and
whether the remote client was invoked. -/
def vectorize_index_create (_p : CreateParams) (env : Env) : Envelope × Bool :=
  match env.accountOutcome with
  | .error e => (textEnvelope (createErrorLead ++ describeError e), false)
  | .ok account_id =>
    if accountFalsy account_id then (MISSING_ACCOUNT_ID_RESPONSE, false)
    else
      match env.clientOutcome with
      | .error e => (textEnvelope (createErrorLead ++ describeError e), false)
      | .ok _ =>
        match env.remoteOutcome with
        | .error e => (textEnvelope (createErrorLead ++ describeError e), true)
        | .ok result =>
          (textEnvelope (stringify (nullishCoalesce result
            (.str ("Index created successfully (no detailed response).")))), true)

/-- Handler of the `vectorize_index_list` tool.  Returns the envelope and
the `query` object passed to the remote list call (`none` when no remote
call was made). -/
def vectorize_index_list (p : VectorizeListParams) (env : Env) :
    Envelope × Option ListQuery :=
  match env.accountOutcome with
  | .error e => (textEnvelope (listErrorLead ++ describeError e), none)
  | .ok account_id =>
    if accountFalsy account_id then (MISSING_ACCOUNT_ID_RESPONSE, none)
    else
      match env.clientOutcome with
      | .error e => (textEnvelope (listErrorLead ++ describeError e), none)
      | .ok _ =>
        match env.remoteOutcome with
        | .error e => (textEnvelope (listErrorLead ++ describeError e), some (buildListQuery p))
        | .ok response =>
          (textEnvelope (stringify response), some (buildListQuery p))

/-- Handler of the `vectorize_index_get` tool. -/
def vectorize_index_get (name : String) (env : Env) : Envelope × Bool :=
  match env.accountOutcome with
  | .error e => (textEnvelope (getErrorLead name ++ describeError e), false)
  | .ok account_id =>
    if accountFalsy account_id then (MISSING_ACCOUNT_ID_RESPONSE, false)
    else
      match env.clientOutcome with
      | .error e => (textEnvelope (getErrorLead name ++ describeError e), false)
      | .ok _ =>
        match env.remoteOutcome with
        | .error e => (textEnvelope (getErrorLead name ++ describeError e), true)
        | .ok result =>
          if jsFalsy result then (textEnvelope (getNotFoundText name), true)
          else (textEnvelope (stringify result), true)

/-- Handler of the `vectorize_index_delete` tool. -/
def vectorize_index_delete (name : String) (env : Env) : Envelope × Bool :=
  match env.accountOutcome with
  | .error e => (textEnvelope (deleteErrorLead name ++ describeError e), false)
  | .ok account_id =>
    if accountFalsy account_id then (MISSING_ACCOUNT_ID_RESPONSE, false)
    else
      match env.clientOutcome with
      | .error e => (textEnvelope (deleteErrorLead name ++ describeError e), false)
      | .ok _ =>
        match env.remoteOutcome with
        | .error e => (textEnvelope (deleteErrorLead name ++ describeError e), true)
        | .ok _ =>
          (textEnvelope (stringify (.obj [("success", .bool true),
            ("message", .str ("Vectorize Index \"" ++ name ++ "\" deleted successfully."))])), true)

/-- Handler of the `vectorize_index_info` tool. -/
def vectorize_index_info (name : String) (env : Env) : Envelope × Bool :=
  match env.accountOutcome with
  | .error e => (textEnvelope (infoErrorLead name ++ describeError e), false)
  | .ok account_id =>
    if accountFalsy account_id then (MISSING_ACCOUNT_ID_RESPONSE, false)
    else
      match env.clientOutcome with
      | .error e => (textEnvelope (infoErrorLead name ++ describeError e), false)
      | .ok _ =>
        match env.remoteOutcome with
        | .error e => (textEnvelope (infoErrorLead name ++ describeError e), true)
        | .ok result =>
          (textEnvelope (stringify (nullishCoalesce result
            (.str (infoFallbackText name)))), true)

/-- Handler of the `vectorize_index_insert` tool. -/
def vectorize_index_insert (p : InsertParams) (env : Env) : Envelope × Bool :=
  match env.accountOutcome with
  | .error e => (textEnvelope (insertErrorLead p.name ++ describeError e), false)
  | .ok account_id =>
    if accountFalsy account_id then (MISSING_ACCOUNT_ID_RESPONSE, false)
    else
      match env.clientOutcome with
      | .error e => (textEnvelope (insertErrorLead p.name ++ describeError e), false)
      | .ok _ =>
        match env.remoteOutcome with
        | .error e => (textEnvelope (insertErrorLead p.name ++ describeError e), true)
        | .ok result =>
          (textEnvelope (stringify (nullishCoalesce result
            (.str ("Insert operation initiated (no detailed response).")))), true)

/-- Handler of the `vectorize_index_upsert` tool. -/
def vectorize_index_upsert (p : InsertParams) (env : Env) : Envelope × Bool :=
  match env.accountOutcome with
  | .error e => (textEnvelope (upsertErrorLead p.name ++ describeError e), false)
  | .ok account_id =>
    if accountFalsy account_id then (MISSING_ACCOUNT_ID_RESPONSE, false)
    else
      match env.clientOutcome with
      | .error e => (textEnvelope (upsertErrorLead p.name ++ describeError e), false)
      | .ok _ =>
        match env.remoteOutcome with
        | .error e => (textEnvelope (upsertErrorLead p.name ++ describeError e), true)
        | .ok result =>
          (textEnvelope (stringify (nullishCoalesce result
            (.str ("Upsert operation initiated (no detailed response).")))), true)

/-- Handler of the `vectorize_index_query` tool. -/
def vectorize_index_query (p : QueryParams) (env : Env) : Envelope × Bool :=
  match env.accountOutcome with
  | .error e => (textEnvelope (queryErrorLead p.name ++ describeError e), false)
  | .ok account_id =>
    if accountFalsy account_id then (MISSING_ACCOUNT_ID_RESPONSE, false)
    else
      match env.clientOutcome with
      | .error e => (textEnvelope (queryErrorLead p.name ++ describeError e), false)
      | .ok _ =>
        match env.remoteOutcome with
        | .error e => (textEnvelope (queryErrorLead p.name ++ describeError e), true)
        | .ok result =>
          (textEnvelope (stringify (nullishCoalesce result
            (.str ("Query executed, but no results returned.")))), true)

/-- Handler of the `vectorize_index_get_by_ids` tool. -/
def vectorize_index_get_by_ids (p : IdsParams) (env : Env) : Envelope × Bool :=
  match env.accountOutcome with
  | .error e => (textEnvelope (getByIdsErrorLead p.name ++ describeError e), false)
  | .ok account_id =>
    if accountFalsy account_id then (MISSING_ACCOUNT_ID_RESPONSE, false)
    else
      match env.clientOutcome with
      | .error e => (textEnvelope (getByIdsErrorLead p.name ++ describeError e), false)
      | .ok _ =>
        match env.remoteOutcome with
        | .error e => (textEnvelope (getByIdsErrorLead p.name ++ describeError e), true)
        | .ok result =>
          if isNullish result then (textEnvelope (getByIdsNotFoundText p.name), true)
          else (textEnvelope (stringify result), true)

/-- Handler of the `vectorize_index_delete_by_ids` tool. -/
def vectorize_index_delete_by_ids (p : IdsParams) (env : Env) : Envelope × Bool :=
  match env.accountOutcome with
  | .error e => (textEnvelope (deleteByIdsErrorLead p.name ++ describeError e), false)
  | .ok account_id =>
    if accountFalsy account_id then (MISSING_ACCOUNT_ID_RESPONSE, false)
    else
      match env.clientOutcome with
      | .error e => (textEnvelope (deleteByIdsErrorLead p.name ++ describeError e), false)
      | .ok _ =>
        match env.remoteOutcome with
        | .error e => (textEnvelope (deleteByIdsErrorLead p.name ++ describeError e), true)
        | .ok result =>
          (textEnvelope (stringify (nullishCoalesce result
            (.str ("Delete by IDs operation initiated (no detailed response).")))), true)

/-- A zod issue, reduced to the structure the claims inspect.  An
`invalidUnion` carries the full error of each rejected union branch. -/
inductive ZodIssue where
  | invalidType (expected received : String)
  | tooSmall (minimum : Int) (message : String)
  | tooBig (maximum : Int) (message : String)
  | invalidEnumValue (options : List String) (received : String)
  | invalidString (message : String)
  | invalidUnion (unionErrors : List (List ZodIssue))

/-- A zod error: the list of collected issues. -/
abbrev ZodError := List ZodIssue

/-- Whether a parse accepted its input. -/
def accepts {α : Type} : Except ZodError α → Bool
  | .ok _ => true
  | .error _ => false

/-- The character class of the index-name regex `^[a-zA-Z0-9_-]+$`. -/
def indexNameChar (c : Char) : Bool :=
  c.isAlphanum || c = '_' || c = '-'

/-- `VectorizeIndexNameSchema`: `z.string().min(1).max(64).regex(/^[a-zA-Z0-9_-]+$/)`. -/
def VectorizeIndexNameSchema (v : JSValue) : Except ZodError String :=
  match v with
  | .str s =>
    let issues : ZodError :=
      (if s.length < 1 then [ZodIssue.tooSmall 1 ("Index name cannot be empty.")] else [])
      ++ (if s.length > 64 then [ZodIssue.tooBig 64 ("Index name cannot exceed 64 characters.")] else [])
      ++ (if s.length > 0 && s.data.all indexNameChar then []
          else [ZodIssue.invalidString
            ("Index name can only contain alphanumeric characters, underscores, and hyphens.")])
    if issues.isEmpty then .ok s else .error issues
  | w => .error [ZodIssue.invalidType ("string") (typeNameOf w)]

/-- `VectorizeIndexDimensionSchema`: `z.number().int().positive(...)`. -/
def VectorizeIndexDimensionSchema (v : JSValue) : Except ZodError ℚ :=
  match v with
  | .num q =>
    let issues : ZodError :=
      (if q.den = 1 then [] else [ZodIssue.invalidType ("integer") ("float")])
      ++ (if 0 < q then [] else [ZodIssue.tooSmall 0 ("Dimensions must be a positive integer.")])
    if issues.isEmpty then .ok q else .error issues
  | w => .error [ZodIssue.invalidType ("number") (typeNameOf w)]

/-- The options of `VectorizeIndexMetricSchema`. -/
def metricOptions : List String := ["cosine", "euclidean", "dot-product"]

/-- `VectorizeIndexMetricSchema`: `z.enum(['cosine', 'euclidean', 'dot-product'])`. -/
def VectorizeIndexMetricSchema (v : JSValue) : Except ZodError String :=
  match v with
  | .str s =>
    if metricOptions.contains s then .ok s
    else .error [ZodIssue.invalidEnumValue metricOptions s]
  | w => .error [ZodIssue.invalidType ("string") (typeNameOf w)]

/-- `VectorizeIndexDimensionConfigSchema`: `z.object({dimensions, metric})`
in zod's default strip mode — unknown keys are dropped, issues of the two
field parses are collected. -/
def VectorizeIndexDimensionConfigSchema (v : JSValue) : Except ZodError JSValue :=
  match v with
  | .obj fields =>
    match VectorizeIndexDimensionSchema (jsGet fields ("dimensions")),
        VectorizeIndexMetricSchema (jsGet fields ("metric")) with
    | .ok d, .ok m => .ok (.obj [("dimensions", .num d), ("metric", .str m)])
    | .error e1, .ok _ => .error e1
    | .ok _, .error e2 => .error e2
    | .error e1, .error e2 => .error (e1 ++ e2)
  | w => .error [ZodIssue.invalidType ("object") (typeNameOf w)]

/-- The options of `VectorizeIndexPresetSchema`. -/
def presetOptions : List String :=
  ["@cf/baai/bge-small-en-v1.5", "@cf/baai/bge-base-en-v1.5",
   "@cf/baai/bge-large-en-v1.5", "openai/text-embedding-ada-002",
   "cohere/embed-multilingual-v2.0"]

/-- `VectorizeIndexPresetSchema`: the preset enum. -/
def VectorizeIndexPresetSchema (v : JSValue) : Except ZodError String :=
  match v with
  | .str s =>
    if presetOptions.contains s then .ok s
    else .error [ZodIssue.invalidEnumValue presetOptions s]
  | w => .error [ZodIssue.invalidType ("string") (typeNameOf w)]

/-- `VectorizeIndexPresetConfigSchema`: `z.object({preset})` in strip mode. -/
def VectorizeIndexPresetConfigSchema (v : JSValue) : Except ZodError JSValue :=
  match v with
  | .obj fields =>
    match VectorizeIndexPresetSchema (jsGet fields ("preset")) with
    | .ok p => .ok (.obj [("preset", .str p)])
    | .error e => .error e
  | w => .error [ZodIssue.invalidType ("object") (typeNameOf w)]

/-- `VectorizeIndexConfigSchema`: `z.union([dimensionConfig, presetConfig])`
— the options are tried in order, the first success wins, and when both fail
the error is a single invalid-union issue carrying both branch errors. -/
def VectorizeIndexConfigSchema (v : JSValue) : Except ZodError JSValue :=
  match VectorizeIndexDimensionConfigSchema v with
  | .ok r => .ok r
  | .error e1 =>
    match VectorizeIndexPresetConfigSchema v with
    | .ok r => .ok r
    | .error e2 => .error [ZodIssue.invalidUnion [e1, e2]]

/-- `VectorizeNdjsonBodySchema`: `z.string().min(1, 'NDJSON body cannot be empty.')`. -/
def VectorizeNdjsonBodySchema (v : JSValue) : Except ZodError String :=
  match v with
  | .str s =>
    if s.length < 1 then .error [ZodIssue.tooSmall 1 ("NDJSON body cannot be empty.")]
    else .ok s
  | w => .error [ZodIssue.invalidType ("string") (typeNameOf w)]

/-- The options of `VectorizeUnparsableBehaviorSchema`. -/
def behaviorOptions : List String := ["error", "discard"]

/-- `VectorizeUnparsableBehaviorSchema`: `z.enum(['error', 'discard']).optional()`. -/
def VectorizeUnparsableBehaviorSchema (v : JSValue) : Except ZodError (Option String) :=
  match v with
  | .undef => .ok none
  | .str s =>
    if behaviorOptions.contains s then .ok (some s)
    else .error [ZodIssue.invalidEnumValue behaviorOptions s]
  | w => .error [ZodIssue.invalidType ("string") (typeNameOf w)]

/-- An input has the dimensions/metric shape when its `dimensions` member is
a positive integer number and its `metric` member is one of the metric enum
options (any further members are irrelevant to zod's strip-mode object). -/
def matchesDimensionShape (v : JSValue) : Bool :=
  match v with
  | .obj fields =>
    (match jsGet fields ("dimensions") with
     | .num q => q.den == 1 && decide (0 < q)
     | _ => false)
    && (match jsGet fields ("metric") with
        | .str s => metricOptions.contains s
        | _ => false)
  | _ => false

/-- An input has the preset shape when its `preset` member is one of the
preset enum options. -/
def matchesPresetShape (v : JSValue) : Bool :=
  match v with
  | .obj fields =>
    (match jsGet fields ("preset") with
     | .str s => presetOptions.contains s
     | _ => false)
  | _ => false

/-- Modelled from the spec: the tool registry (the agent runtime, an
external collaborator not among the provided sources) validates every
declared parameter schema before dispatching, so the handler runs on
"schema-validated params already guaranteed by the runtime" and a validation
failure is returned without reaching the handler.  Insert-tool invocation:
validate `name`, `vectors_ndjson`, `unparsable_behavior`, then run the
handler. -/
def invoke_vectorize_index_insert (rawName rawBody rawBehavior : JSValue)
    (env : Env) : Except ZodError (Envelope × Bool) :=
  match VectorizeIndexNameSchema rawName with
  | .error e1 => .error e1
  | .ok name =>
    match VectorizeNdjsonBodySchema rawBody with
    | .error e2 => .error e2
    | .ok body =>
      match VectorizeUnparsableBehaviorSchema rawBehavior with
      | .error e3 => .error e3
      | .ok behavior =>
        .ok (vectorize_index_insert (InsertParams.mk name body behavior) env)

/-- Modelled from the spec: upsert-tool invocation under the same
validate-before-dispatch protocol as `invoke_vectorize_index_insert`. -/
def invoke_vectorize_index_upsert (rawName rawBody rawBehavior : JSValue)
    (env : Env) : Except ZodError (Envelope × Bool) :=
  match VectorizeIndexNameSchema rawName with
  | .error e1 => .error e1
  | .ok name =>
    match VectorizeNdjsonBodySchema rawBody with
    | .error e2 => .error e2
    | .ok body =>
      match VectorizeUnparsableBehaviorSchema rawBehavior with
      | .error e3 => .error e3
      | .ok behavior =>
        .ok (vectorize_index_upsert (InsertParams.mk name body behavior) env)

/-- Whether a tool invocation that may have been rejected at validation
reached the remote client. -/
def remoteCalledE (r : Except ZodError (Envelope × Bool)) : Bool :=
  match r with
  | .ok out => out.2
  | .error _ => false

/-- An environment whose account resolution and client construction succeed
and whose remote call returns `r`. -/
def envOkWith (r : JSValue) : Env :=
  Env.mk (.ok (some ("account-id"))) (.ok ()) (.ok r)

/-- An environment whose account resolution yields no active account. -/
def envAccountMissing : Env :=
  Env.mk (.ok none) (.ok ()) (.ok JSValue.null)

/-- An environment whose remote call throws `e`. -/
def envRemoteFault (e : ThrownValue) : Env :=
  Env.mk (.ok (some ("account-id"))) (.ok ()) (.error e)

theorem texts_ne_of_data_at (s t : String) (i : Nat) (h : s.data[i]? ≠ t.data[i]?) :
    s ≠ t :=
  fun he => h (by rw [he])

theorem head_at_left (a b : String) (i : Nat) (h : i < a.data.length) :
    (a ++ b).data[i]? = a.data[i]? := by
  rw [String.data_append]
  exact List.getElem?_append_left h

theorem lt_len_append_left {a : String} (b : String) {i : Nat} (h : i < a.data.length) :
    i < (a ++ b).data.length := by
  rw [String.data_append, List.length_append]
  omega

theorem wellFormed_textEnvelope (t : String) : envelopeWellFormed (textEnvelope t) = true := rfl

theorem wellFormed_missing : envelopeWellFormed MISSING_ACCOUNT_ID_RESPONSE = true := rfl

theorem jsFalsy_of_isNullish {r : JSValue} (h : isNullish r = true) : jsFalsy r = true := by
  cases r <;> simp_all [isNullish, jsFalsy]

theorem nullishCoalesce_of_isNullish {r f : JSValue} (h : isNullish r = true) :
    nullishCoalesce r f = f := by
  cases r <;> simp_all [isNullish, nullishCoalesce]

theorem nullishCoalesce_of_not_isNullish {r f : JSValue} (h : isNullish r = false) :
    nullishCoalesce r f = r := by
  cases r <;> simp_all [isNullish, nullishCoalesce]

theorem envFault_cases (env : Env) (e : ThrownValue) (h : envFault env = some e) :
    env.accountOutcome = .error e ∨
    (∃ a, env.accountOutcome = .ok a ∧ accountFalsy a = false ∧
      env.clientOutcome = .error e) ∨
    (∃ a, env.accountOutcome = .ok a ∧ accountFalsy a = false ∧
      env.clientOutcome = .ok () ∧ env.remoteOutcome = .error e) := by
  obtain ⟨acct, cl, rem⟩ := env
  rcases acct with e0 | a
  · left
    simp only [envFault] at h
    injection h with h
    rw [h]
  · by_cases hf : accountFalsy a = true
    · simp [envFault, hf] at h
    · rw [Bool.not_eq_true] at hf
      rcases cl with e1 | u
      · right; left
        refine ⟨a, rfl, hf, ?_⟩
        simp [envFault, hf] at h
        rw [h]
      · cases u
        rcases rem with e2 | r
        · right; right
          refine ⟨a, rfl, hf, rfl, ?_⟩
          simp [envFault, hf] at h
          rw [h]
        · simp [envFault, hf] at h

theorem create_fault_text (p : CreateParams) (env : Env) (e : ThrownValue)
    (h : envFault env = some e) :
    (vectorize_index_create p env).1 = textEnvelope (createErrorLead ++ describeError e) := by
  obtain ⟨acct, cl, rem⟩ := env
  rcases envFault_cases _ _ h with h1 | ⟨a, h1, h2, h3⟩ | ⟨a, h1, h2, h3, h4⟩ <;>
    simp_all [vectorize_index_create]

theorem list_fault_text (p : VectorizeListParams) (env : Env) (e : ThrownValue)
    (h : envFault env = some e) :
    (vectorize_index_list p env).1 = textEnvelope (listErrorLead ++ describeError e) := by
  obtain ⟨acct, cl, rem⟩ := env
  rcases envFault_cases _ _ h with h1 | ⟨a, h1, h2, h3⟩ | ⟨a, h1, h2, h3, h4⟩ <;>
    simp_all [vectorize_index_list]

theorem get_fault_text (name : String) (env : Env) (e : ThrownValue)
    (h : envFault env = some e) :
    (vectorize_index_get name env).1 = textEnvelope (getErrorLead name ++ describeError e) := by
  obtain ⟨acct, cl, rem⟩ := env
  rcases envFault_cases _ _ h with h1 | ⟨a, h1, h2, h3⟩ | ⟨a, h1, h2, h3, h4⟩ <;>
    simp_all [vectorize_index_get]

theorem delete_fault_text (name : String) (env : Env) (e : ThrownValue)
    (h : envFault env = some e) :
    (vectorize_index_delete name env).1
      = textEnvelope (deleteErrorLead name ++ describeError e) := by
  obtain ⟨acct, cl, rem⟩ := env
  rcases envFault_cases _ _ h with h1 | ⟨a, h1, h2, h3⟩ | ⟨a, h1, h2, h3, h4⟩ <;>
    simp_all [vectorize_index_delete]

theorem info_fault_text (name : String) (env : Env) (e : ThrownValue)
    (h : envFault env = some e) :
    (vectorize_index_info name env).1
      = textEnvelope (infoErrorLead name ++ describeError e) := by
  obtain ⟨acct, cl, rem⟩ := env
  rcases envFault_cases _ _ h with h1 | ⟨a, h1, h2, h3⟩ | ⟨a, h1, h2, h3, h4⟩ <;>
    simp_all [vectorize_index_info]

theorem insert_fault_text (p : InsertParams) (env : Env) (e : ThrownValue)
    (h : envFault env = some e) :
    (vectorize_index_insert p env).1
      = textEnvelope (insertErrorLead p.name ++ describeError e) := by
  obtain ⟨acct, cl, rem⟩ := env
  rcases envFault_cases _ _ h with h1 | ⟨a, h1, h2, h3⟩ | ⟨a, h1, h2, h3, h4⟩ <;>
    simp_all [vectorize_index_insert]

theorem upsert_fault_text (p : InsertParams) (env : Env) (e : ThrownValue)
    (h : envFault env = some e) :
    (vectorize_index_upsert p env).1
      = textEnvelope (upsertErrorLead p.name ++ describeError e) := by
  obtain ⟨acct, cl, rem⟩ := env
  rcases envFault_cases _ _ h with h1 | ⟨a, h1, h2, h3⟩ | ⟨a, h1, h2, h3, h4⟩ <;>
    simp_all [vectorize_index_upsert]

theorem query_fault_text (p : QueryParams) (env : Env) (e : ThrownValue)
    (h : envFault env = some e) :
    (vectorize_index_query p env).1
      = textEnvelope (queryErrorLead p.name ++ describeError e) := by
  obtain ⟨acct, cl, rem⟩ := env
  rcases envFault_cases _ _ h with h1 | ⟨a, h1, h2, h3⟩ | ⟨a, h1, h2, h3, h4⟩ <;>
    simp_all [vectorize_index_query]

theorem get_by_ids_fault_text (p : IdsParams) (env : Env) (e : ThrownValue)
    (h : envFault env = some e) :
    (vectorize_index_get_by_ids p env).1
      = textEnvelope (getByIdsErrorLead p.name ++ describeError e) := by
  obtain ⟨acct, cl, rem⟩ := env
  rcases envFault_cases _ _ h with h1 | ⟨a, h1, h2, h3⟩ | ⟨a, h1, h2, h3, h4⟩ <;>
    simp_all [vectorize_index_get_by_ids]

theorem delete_by_ids_fault_text (p : IdsParams) (env : Env) (e : ThrownValue)
    (h : envFault env = some e) :
    (vectorize_index_delete_by_ids p env).1
      = textEnvelope (deleteByIdsErrorLead p.name ++ describeError e) := by
  obtain ⟨acct, cl, rem⟩ := env
  rcases envFault_cases _ _ h with h1 | ⟨a, h1, h2, h3⟩ | ⟨a, h1, h2, h3, h4⟩ <;>
    simp_all [vectorize_index_delete_by_ids]

theorem create_wellformed (p : CreateParams) (env : Env) :
    envelopeWellFormed (vectorize_index_create p env).1 = true := by
  obtain ⟨acct, cl, rem⟩ := env
  rcases acct with e0 | a
  · rfl
  · by_cases hf : accountFalsy a = true <;>
      rcases cl with e1 | ⟨⟩ <;> rcases rem with e2 | r <;>
      simp [vectorize_index_create, hf, wellFormed_textEnvelope, wellFormed_missing]

theorem list_wellformed (p : VectorizeListParams) (env : Env) :
    envelopeWellFormed (vectorize_index_list p env).1 = true := by
  obtain ⟨acct, cl, rem⟩ := env
  rcases acct with e0 | a
  · rfl
  · by_cases hf : accountFalsy a = true <;>
      rcases cl with e1 | ⟨⟩ <;> rcases rem with e2 | r <;>
      simp [vectorize_index_list, hf, wellFormed_textEnvelope, wellFormed_missing]

theorem get_wellformed (name : String) (env : Env) :
    envelopeWellFormed (vectorize_index_get name env).1 = true := by
  obtain ⟨acct, cl, rem⟩ := env
  rcases acct with e0 | a
  · rfl
  · by_cases hf : accountFalsy a = true <;>
      rcases cl with e1 | ⟨⟩ <;> rcases rem with e2 | r <;>
      simp [vectorize_index_get, hf, wellFormed_textEnvelope, wellFormed_missing] <;>
      by_cases hj : jsFalsy r = true <;>
      simp [hj, wellFormed_textEnvelope]

theorem delete_wellformed (name : String) (env : Env) :
    envelopeWellFormed (vectorize_index_delete name env).1 = true := by
  obtain ⟨acct, cl, rem⟩ := env
  rcases acct with e0 | a
  · rfl
  · by_cases hf : accountFalsy a = true <;>
      rcases cl with e1 | ⟨⟩ <;> rcases rem with e2 | r <;>
      simp [vectorize_index_delete, hf, wellFormed_textEnvelope, wellFormed_missing]

theorem info_wellformed (name : String) (env : Env) :
    envelopeWellFormed (vectorize_index_info name env).1 = true := by
  obtain ⟨acct, cl, rem⟩ := env
  rcases acct with e0 | a
  · rfl
  · by_cases hf : accountFalsy a = true <;>
      rcases cl with e1 | ⟨⟩ <;> rcases rem with e2 | r <;>
      simp [vectorize_index_info, hf, wellFormed_textEnvelope, wellFormed_missing]

theorem insert_wellformed (p : InsertParams) (env : Env) :
    envelopeWellFormed (vectorize_index_insert p env).1 = true := by
  obtain ⟨acct, cl, rem⟩ := env
  rcases acct with e0 | a
  · rfl
  · by_cases hf : accountFalsy a = true <;>
      rcases cl with e1 | ⟨⟩ <;> rcases rem with e2 | r <;>
      simp [vectorize_index_insert, hf, wellFormed_textEnvelope, wellFormed_missing]

theorem upsert_wellformed (p : InsertParams) (env : Env) :
    envelopeWellFormed (vectorize_index_upsert p env).1 = true := by
  obtain ⟨acct, cl, rem⟩ := env
  rcases acct with e0 | a
  · rfl
  · by_cases hf : accountFalsy a = true <;>
      rcases cl with e1 | ⟨⟩ <;> rcases rem with e2 | r <;>
      simp [vectorize_index_upsert, hf, wellFormed_textEnvelope, wellFormed_missing]

theorem query_wellformed (p : QueryParams) (env : Env) :
    envelopeWellFormed (vectorize_index_query p env).1 = true := by
  obtain ⟨acct, cl, rem⟩ := env
  rcases acct with e0 | a
  · rfl
  · by_cases hf : accountFalsy a = true <;>
      rcases cl with e1 | ⟨⟩ <;> rcases rem with e2 | r <;>
      simp [vectorize_index_query, hf, wellFormed_textEnvelope, wellFormed_missing]

theorem get_by_ids_wellformed (p : IdsParams) (env : Env) :
    envelopeWellFormed (vectorize_index_get_by_ids p env).1 = true := by
  obtain ⟨acct, cl, rem⟩ := env
  rcases acct with e0 | a
  · rfl
  · by_cases hf : accountFalsy a = true <;>
      rcases cl with e1 | ⟨⟩ <;> rcases rem with e2 | r <;>
      simp [vectorize_index_get_by_ids, hf, wellFormed_textEnvelope, wellFormed_missing] <;>
      by_cases hj : isNullish r = true <;>
      simp [hj, wellFormed_textEnvelope]

theorem delete_by_ids_wellformed (p : IdsParams) (env : Env) :
    envelopeWellFormed (vectorize_index_delete_by_ids p env).1 = true := by
  obtain ⟨acct, cl, rem⟩ := env
  rcases acct with e0 | a
  · rfl
  · by_cases hf : accountFalsy a = true <;>
      rcases cl with e1 | ⟨⟩ <;> rcases rem with e2 | r <;>
      simp [vectorize_index_delete_by_ids, hf, wellFormed_textEnvelope, wellFormed_missing]

theorem dimension_config_accepts_iff (v : JSValue) :
    accepts (VectorizeIndexDimensionConfigSchema v) = matchesDimensionShape v := by
  rcases v with _ | _ | b | q | s | xs | fields <;>
    simp [VectorizeIndexDimensionConfigSchema, matchesDimensionShape, accepts]
  rcases hd : jsGet fields ("dimensions") with _ | _ | b | q | s | xs | fs <;>
    rcases hm : jsGet fields ("metric") with _ | _ | b2 | q2 | s2 | xs2 | fs2 <;>
    simp [VectorizeIndexDimensionSchema, VectorizeIndexMetricSchema, accepts] <;>
    split_ifs <;> simp_all

theorem preset_config_accepts_iff (v : JSValue) :
    accepts (VectorizeIndexPresetConfigSchema v) = matchesPresetShape v := by
  rcases v with _ | _ | b | q | s | xs | fields <;>
    simp [VectorizeIndexPresetConfigSchema, matchesPresetShape, accepts]
  rcases hp : jsGet fields ("preset") with _ | _ | b | q | s | xs | fs <;>
    simp [VectorizeIndexPresetSchema, accepts] <;>
    split_ifs <;> simp_all

theorem stringify_obj_head (fs : List (String × JSValue)) :
    (stringify (.obj fs)).data[0]? = some (Char.ofNat 123) := by
  show (("\x7b" ++ String.intercalate (",") (stringifyMembers fs)) ++ "\x7d").data[0]? = _
  rw [head_at_left _ _ _ (lt_len_append_left _ (by decide)),
      head_at_left _ _ _ (by decide)]
  decide

theorem get_not_found_ne_fault (name d : String) :
    getNotFoundText name ≠ getErrorLead name ++ d := by
  apply texts_ne_of_data_at _ _ 5
  rw [getNotFoundText, getErrorLead]
  rw [head_at_left _ _ _ (lt_len_append_left _ (by decide)),
      head_at_left _ _ _ (by decide)]
  rw [head_at_left _ _ _ (lt_len_append_left _ (lt_len_append_left _ (by decide))),
      head_at_left _ _ _ (lt_len_append_left _ (by decide)),
      head_at_left _ _ _ (by decide)]
  decide

theorem get_by_ids_not_found_ne_fault (name d : String) :
    getByIdsNotFoundText name ≠ getByIdsErrorLead name ++ d := by
  apply texts_ne_of_data_at _ _ 5
  rw [getByIdsNotFoundText, getByIdsErrorLead]
  rw [head_at_left _ _ _ (lt_len_append_left _ (by decide)),
      head_at_left _ _ _ (by decide)]
  rw [head_at_left _ _ _ (lt_len_append_left _ (lt_len_append_left _ (by decide))),
      head_at_left _ _ _ (lt_len_append_left _ (by decide)),
      head_at_left _ _ _ (by decide)]
  decide

theorem info_fallback_ne_fault (name d : String) :
    stringify (.str (infoFallbackText name)) ≠ infoErrorLead name ++ d := by
  apply texts_ne_of_data_at _ _ 0
  show (quoteJson (infoFallbackText name)).data[0]? ≠ _
  rw [quoteJson, infoErrorLead]
  rw [head_at_left _ _ _ (lt_len_append_left _ (by decide)),
      head_at_left _ _ _ (by decide)]
  rw [head_at_left _ _ _ (lt_len_append_left _ (lt_len_append_left _ (by decide))),
      head_at_left _ _ _ (lt_len_append_left _ (by decide)),
      head_at_left _ _ _ (by decide)]
  decide

theorem isExplicitNull_jsOrUndef {α : Type} (x : JSOpt α) :
    JSOpt.isExplicitNull (jsOrUndef x) = false := by
  cases x <;> rfl

/-- C1: if the account resolver yields no active account identifier (a
falsy account id), each of the ten vectorize tool handlers returns the
fixed `MISSING_ACCOUNT_ID_RESPONSE` envelope and the remote client is never
invoked, for all otherwise-valid parameter values and all client/remote
outcomes. -/
theorem c1_missing_account_short_circuit (acct : Option String)
    (hf : accountFalsy acct = true) (cl : Except ThrownValue Unit)
    (rem : Except ThrownValue JSValue) :
    (∀ p : CreateParams, vectorize_index_create p (Env.mk (.ok acct) cl rem)
      = (MISSING_ACCOUNT_ID_RESPONSE, false)) ∧
    (∀ p : VectorizeListParams, vectorize_index_list p (Env.mk (.ok acct) cl rem)
      = (MISSING_ACCOUNT_ID_RESPONSE, none)) ∧
    (∀ name : String, vectorize_index_get name (Env.mk (.ok acct) cl rem)
      = (MISSING_ACCOUNT_ID_RESPONSE, false)) ∧
    (∀ name : String, vectorize_index_delete name (Env.mk (.ok acct) cl rem)
      = (MISSING_ACCOUNT_ID_RESPONSE, false)) ∧
    (∀ name : String, vectorize_index_info name (Env.mk (.ok acct) cl rem)
      = (MISSING_ACCOUNT_ID_RESPONSE, false)) ∧
    (∀ p : InsertParams, vectorize_index_insert p (Env.mk (.ok acct) cl rem)
      = (MISSING_ACCOUNT_ID_RESPONSE, false)) ∧
    (∀ p : InsertParams, vectorize_index_upsert p (Env.mk (.ok acct) cl rem)
      = (MISSING_ACCOUNT_ID_RESPONSE, false)) ∧
    (∀ p : QueryParams, vectorize_index_query p (Env.mk (.ok acct) cl rem)
      = (MISSING_ACCOUNT_ID_RESPONSE, false)) ∧
    (∀ p : IdsParams, vectorize_index_get_by_ids p (Env.mk (.ok acct) cl rem)
      = (MISSING_ACCOUNT_ID_RESPONSE, false)) ∧
    (∀ p : IdsParams, vectorize_index_delete_by_ids p (Env.mk (.ok acct) cl rem)
      = (MISSING_ACCOUNT_ID_RESPONSE, false)) := by
  refine ⟨fun p => ?_, fun p => ?_, fun n => ?_, fun n => ?_, fun n => ?_, fun p => ?_,
    fun p => ?_, fun p => ?_, fun p => ?_, fun p => ?_⟩ <;>
    simp [vectorize_index_create, vectorize_index_list, vectorize_index_get,
      vectorize_index_delete, vectorize_index_info, vectorize_index_insert,
      vectorize_index_upsert, vectorize_index_query, vectorize_index_get_by_ids,
      vectorize_index_delete_by_ids, hf]

/-- Witness for C1: a concrete run of every tool against a resolver that
yields no account. -/
theorem c1_missing_account_short_circuit_witness :
    vectorize_index_create (CreateParams.mk ("test-idx")
        (.obj [("preset", .str ("@cf/baai/bge-small-en-v1.5"))]) none) envAccountMissing
      = (MISSING_ACCOUNT_ID_RESPONSE, false) ∧
    vectorize_index_list (VectorizeListParams.mk (.val 2) (.val 10) (.val ("name"))
        (.val ("desc"))) envAccountMissing = (MISSING_ACCOUNT_ID_RESPONSE, none) ∧
    vectorize_index_get ("test-idx") envAccountMissing = (MISSING_ACCOUNT_ID_RESPONSE, false) ∧
    vectorize_index_delete ("test-idx") envAccountMissing = (MISSING_ACCOUNT_ID_RESPONSE, false) ∧
    vectorize_index_info ("test-idx") envAccountMissing = (MISSING_ACCOUNT_ID_RESPONSE, false) ∧
    vectorize_index_insert (InsertParams.mk ("test-idx") ("\x7b\"id\":\"v1\"\x7d") none)
      envAccountMissing = (MISSING_ACCOUNT_ID_RESPONSE, false) ∧
    vectorize_index_upsert (InsertParams.mk ("test-idx") ("\x7b\"id\":\"v1\"\x7d") none)
      envAccountMissing = (MISSING_ACCOUNT_ID_RESPONSE, false) ∧
    vectorize_index_query (QueryParams.mk ("test-idx") [1, 2] none none none (some 5))
      envAccountMissing = (MISSING_ACCOUNT_ID_RESPONSE, false) ∧
    vectorize_index_get_by_ids (IdsParams.mk ("test-idx") [("v1")]) envAccountMissing
      = (MISSING_ACCOUNT_ID_RESPONSE, false) ∧
    vectorize_index_delete_by_ids (IdsParams.mk ("test-idx") [("v1")]) envAccountMissing
      = (MISSING_ACCOUNT_ID_RESPONSE, false) := by
  obtain ⟨h1, h2, h3, h4, h5, h6, h7, h8, h9, h10⟩ :=
    c1_missing_account_short_circuit none rfl (.ok ()) (.ok JSValue.null)
  exact ⟨h1 _, h2 _, h3 _, h4 _, h5 _, h6 _, h7 _, h8 _, h9 _, h10 _⟩

/-- C2: every fault raised at account resolution, client construction, or
the remote call is caught at the handler boundary and mapped to a text
envelope whose message is the per-operation head followed by the fault's
description; and every handler run whatsoever returns a well-formed
single-text-block envelope (the handlers are total — no path re-raises to
the runtime). -/
theorem c2_faults_never_escape :
    (∀ (env : Env) (e : ThrownValue), envFault env = some e →
      (∀ p : CreateParams, (vectorize_index_create p env).1
        = textEnvelope (createErrorLead ++ describeError e)) ∧
      (∀ p : VectorizeListParams, (vectorize_index_list p env).1
        = textEnvelope (listErrorLead ++ describeError e)) ∧
      (∀ name : String, (vectorize_index_get name env).1
        = textEnvelope (getErrorLead name ++ describeError e)) ∧
      (∀ name : String, (vectorize_index_delete name env).1
        = textEnvelope (deleteErrorLead name ++ describeError e)) ∧
      (∀ name : String, (vectorize_index_info name env).1
        = textEnvelope (infoErrorLead name ++ describeError e)) ∧
      (∀ p : InsertParams, (vectorize_index_insert p env).1
        = textEnvelope (insertErrorLead p.name ++ describeError e)) ∧
      (∀ p : InsertParams, (vectorize_index_upsert p env).1
        = textEnvelope (upsertErrorLead p.name ++ describeError e)) ∧
      (∀ p : QueryParams, (vectorize_index_query p env).1
        = textEnvelope (queryErrorLead p.name ++ describeError e)) ∧
      (∀ p : IdsParams, (vectorize_index_get_by_ids p env).1
        = textEnvelope (getByIdsErrorLead p.name ++ describeError e)) ∧
      (∀ p : IdsParams, (vectorize_index_delete_by_ids p env).1
        = textEnvelope (deleteByIdsErrorLead p.name ++ describeError e))) ∧
    (∀ env : Env,
      (∀ p : CreateParams, envelopeWellFormed (vectorize_index_create p env).1 = true) ∧
      (∀ p : VectorizeListParams, envelopeWellFormed (vectorize_index_list p env).1 = true) ∧
      (∀ name : String, envelopeWellFormed (vectorize_index_get name env).1 = true) ∧
      (∀ name : String, envelopeWellFormed (vectorize_index_delete name env).1 = true) ∧
      (∀ name : String, envelopeWellFormed (vectorize_index_info name env).1 = true) ∧
      (∀ p : InsertParams, envelopeWellFormed (vectorize_index_insert p env).1 = true) ∧
      (∀ p : InsertParams, envelopeWellFormed (vectorize_index_upsert p env).1 = true) ∧
      (∀ p : QueryParams, envelopeWellFormed (vectorize_index_query p env).1 = true) ∧
      (∀ p : IdsParams, envelopeWellFormed (vectorize_index_get_by_ids p env).1 = true) ∧
      (∀ p : IdsParams, envelopeWellFormed (vectorize_index_delete_by_ids p env).1 = true)) := by
  constructor
  · intro env e h
    exact ⟨fun p => create_fault_text p env e h, fun p => list_fault_text p env e h,
      fun n => get_fault_text n env e h, fun n => delete_fault_text n env e h,
      fun n => info_fault_text n env e h, fun p => insert_fault_text p env e h,
      fun p => upsert_fault_text p env e h, fun p => query_fault_text p env e h,
      fun p => get_by_ids_fault_text p env e h, fun p => delete_by_ids_fault_text p env e h⟩
  · intro env
    exact ⟨fun p => create_wellformed p env, fun p => list_wellformed p env,
      fun n => get_wellformed n env, fun n => delete_wellformed n env,
      fun n => info_wellformed n env, fun p => insert_wellformed p env,
      fun p => upsert_wellformed p env, fun p => query_wellformed p env,
      fun p => get_by_ids_wellformed p env, fun p => delete_by_ids_wellformed p env⟩

/-- Witness for C2: a concrete remote fault mapped to the prefixed fault
envelope for the create and delete tools. -/
theorem c2_faults_never_escape_witness :
    (vectorize_index_create (CreateParams.mk ("test-idx") (.obj []) none)
        (envRemoteFault (.errorInstance ("API error 7010")))).1
      = textEnvelope (createErrorLead ++ describeError (.errorInstance ("API error 7010"))) ∧
    (vectorize_index_delete ("test-idx")
        (envRemoteFault (.errorInstance ("API error 7010")))).1
      = textEnvelope (deleteErrorLead ("test-idx")
          ++ describeError (.errorInstance ("API error 7010"))) := by
  obtain ⟨h1, -, -, h4, -⟩ := c2_faults_never_escape.1
    (envRemoteFault (.errorInstance ("API error 7010"))) (.errorInstance ("API error 7010")) rfl
  exact ⟨h1 _, h4 ("test-idx")⟩

/-- C3: for the get, info, and get-by-ids operations, a nullish
(null/undefined) completed remote result maps to the operation's
not-found/fallback text envelope, and that text never extends the
operation's fault-message head — it therefore differs from every fault
envelope the operation can emit. -/
theorem c3_not_found_envelopes (name : String) (ids : List String)
    (a : Option String) (r : JSValue) (hf : accountFalsy a = false)
    (hr : isNullish r = true) :
    (vectorize_index_get name (Env.mk (.ok a) (.ok ()) (.ok r))).1
      = textEnvelope (getNotFoundText name) ∧
    (vectorize_index_info name (Env.mk (.ok a) (.ok ()) (.ok r))).1
      = textEnvelope (stringify (.str (infoFallbackText name))) ∧
    (vectorize_index_get_by_ids (IdsParams.mk name ids) (Env.mk (.ok a) (.ok ()) (.ok r))).1
      = textEnvelope (getByIdsNotFoundText name) ∧
    (∀ d, getNotFoundText name ≠ getErrorLead name ++ d) ∧
    (∀ d, stringify (.str (infoFallbackText name)) ≠ infoErrorLead name ++ d) ∧
    (∀ d, getByIdsNotFoundText name ≠ getByIdsErrorLead name ++ d) := by
  refine ⟨?_, ?_, ?_, get_not_found_ne_fault name, info_fallback_ne_fault name,
    get_by_ids_not_found_ne_fault name⟩
  · simp [vectorize_index_get, hf, jsFalsy_of_isNullish hr]
  · simp [vectorize_index_info, hf, nullishCoalesce_of_isNullish hr]
  · simp [vectorize_index_get_by_ids, hf, hr]

/-- Witness for C3 at a concrete null remote result. -/
theorem c3_not_found_envelopes_witness :
    (vectorize_index_get ("test-idx") (envOkWith JSValue.null)).1
      = textEnvelope (getNotFoundText ("test-idx")) ∧
    (vectorize_index_info ("test-idx") (envOkWith JSValue.null)).1
      = textEnvelope (stringify (.str (infoFallbackText ("test-idx")))) ∧
    (vectorize_index_get_by_ids (IdsParams.mk ("test-idx") [("v1")])
        (envOkWith JSValue.null)).1
      = textEnvelope (getByIdsNotFoundText ("test-idx")) ∧
    getNotFoundText ("test-idx") ≠ getErrorLead ("test-idx") ++ ("boom") := by
  obtain ⟨h1, h2, h3, h4, -, -⟩ := c3_not_found_envelopes ("test-idx") [("v1")]
    (some ("account-id")) JSValue.null rfl rfl
  exact ⟨h1, h2, h3, h4 ("boom")⟩

/-- C4 counterexample: an input carrying `dimensions`, `metric` and
`preset` members simultaneously is validated successfully by BOTH variant
schemas (zod's strip-mode objects ignore unknown keys), refuting the
claimed "exactly one branch (never both)" exclusivity. -/
theorem c4_counterexample :
    accepts (VectorizeIndexDimensionConfigSchema (.obj [("dimensions", .num 32),
      ("metric", .str ("cosine")), ("preset", .str ("@cf/baai/bge-small-en-v1.5"))])) = true ∧
    accepts (VectorizeIndexPresetConfigSchema (.obj [("dimensions", .num 32),
      ("metric", .str ("cosine")), ("preset", .str ("@cf/baai/bge-small-en-v1.5"))])) = true := by
  constructor <;> decide

/-- C4 (amended): the two branch validators are not mutually exclusive — an
input can satisfy both shapes, in which case the union accepts it via the
first branch in the fixed trial order (dimensions/metric before preset); an
input matching only the preset shape is accepted via the preset branch; and
an input satisfying neither shape is rejected with a single combined
invalid-union error carrying both branches' errors. -/
theorem c4_union_resolution (v : JSValue) :
    (matchesDimensionShape v = true →
      VectorizeIndexConfigSchema v = VectorizeIndexDimensionConfigSchema v ∧
      accepts (VectorizeIndexConfigSchema v) = true) ∧
    (matchesDimensionShape v = false → matchesPresetShape v = true →
      VectorizeIndexConfigSchema v = VectorizeIndexPresetConfigSchema v ∧
      accepts (VectorizeIndexConfigSchema v) = true) ∧
    (matchesDimensionShape v = false → matchesPresetShape v = false →
      ∃ e1 e2, VectorizeIndexDimensionConfigSchema v = .error e1 ∧
        VectorizeIndexPresetConfigSchema v = .error e2 ∧
        VectorizeIndexConfigSchema v = .error [ZodIssue.invalidUnion [e1, e2]]) := by
  refine ⟨?_, ?_, ?_⟩
  · intro h
    have hd := dimension_config_accepts_iff v
    rw [h] at hd
    rcases hD : VectorizeIndexDimensionConfigSchema v with eD | w
    · rw [hD] at hd
      simp [accepts] at hd
    · exact ⟨by simp [VectorizeIndexConfigSchema, hD], by simp [VectorizeIndexConfigSchema, hD, accepts]⟩
  · intro h hp
    have hd := dimension_config_accepts_iff v
    rw [h] at hd
    have hpp := preset_config_accepts_iff v
    rw [hp] at hpp
    rcases hD : VectorizeIndexDimensionConfigSchema v with eD | w
    · rcases hP : VectorizeIndexPresetConfigSchema v with eP | w2
      · rw [hP] at hpp
        simp [accepts] at hpp
      · exact ⟨by simp [VectorizeIndexConfigSchema, hD, hP],
          by simp [VectorizeIndexConfigSchema, hD, hP, accepts]⟩
    · rw [hD] at hd
      simp [accepts] at hd
  · intro h hp
    have hd := dimension_config_accepts_iff v
    rw [h] at hd
    have hpp := preset_config_accepts_iff v
    rw [hp] at hpp
    rcases hD : VectorizeIndexDimensionConfigSchema v with eD | w
    · rcases hP : VectorizeIndexPresetConfigSchema v with eP | w2
      · exact ⟨eD, eP, rfl, rfl, by simp [VectorizeIndexConfigSchema, hD, hP]⟩
      · rw [hP] at hpp
        simp [accepts] at hpp
    · rw [hD] at hd
      simp [accepts] at hd

/-- Witness for C4 at a preset-only input: accepted via the preset branch. -/
theorem c4_union_resolution_witness :
    VectorizeIndexConfigSchema (.obj [("preset", .str ("@cf/baai/bge-small-en-v1.5"))])
      = VectorizeIndexPresetConfigSchema (.obj [("preset", .str ("@cf/baai/bge-small-en-v1.5"))]) ∧
    accepts (VectorizeIndexConfigSchema
      (.obj [("preset", .str ("@cf/baai/bge-small-en-v1.5"))])) = true :=
  (c4_union_resolution (.obj [("preset", .str ("@cf/baai/bge-small-en-v1.5"))])).2.1
    (by decide) (by decide)

/-- C5 counterexample: a successful delete-by-ids remote call with an
absent body yields the JSON-quoted fixed fallback string, which is not the
serialization of any object carrying a true success flag and a message
naming the index. -/
theorem c5_counterexample :
    (vectorize_index_delete_by_ids (IdsParams.mk ("idx") [("v1")])
        (envOkWith JSValue.undef)).1
      = textEnvelope ("\"Delete by IDs operation initiated (no detailed response).\"") ∧
    ¬ ∃ (fields : List (String × JSValue)) (m : String),
        ("\"Delete by IDs operation initiated (no detailed response).\"" : String)
            = stringify (.obj fields) ∧
        jsGet fields ("success") = .bool true ∧
        jsGet fields ("message") = .str m ∧
        ∃ pre post, m = pre ++ ("idx") ++ post := by
  constructor
  · decide
  · rintro ⟨fields, m, htext, -, -, -⟩
    have h0 := stringify_obj_head fields
    rw [← htext] at h0
    exact absurd h0 (by decide)

/-- C5 (amended): the delete handler always synthesizes the serialized
`{success: true, message: ...}` payload naming the index, for every
successful remote call; the delete-by-ids handler instead serializes the
remote result when it is non-nullish and substitutes the fixed fallback
sentence (not a success-flag object) when the body is absent. -/
theorem c5_delete_success_payloads (name : String) (ids : List String)
    (a : Option String) (r : JSValue) (hf : accountFalsy a = false) :
    ((vectorize_index_delete name (Env.mk (.ok a) (.ok ()) (.ok r))).1
      = textEnvelope (stringify (.obj [("success", .bool true),
          ("message", .str ("Vectorize Index \"" ++ name ++ "\" deleted successfully."))]))) ∧
    (∃ pre post, ("Vectorize Index \"" ++ name ++ "\" deleted successfully." : String)
      = pre ++ name ++ post) ∧
    (isNullish r = true →
      (vectorize_index_delete_by_ids (IdsParams.mk name ids)
          (Env.mk (.ok a) (.ok ()) (.ok r))).1
        = textEnvelope (stringify
            (.str ("Delete by IDs operation initiated (no detailed response).")))) ∧
    (isNullish r = false →
      (vectorize_index_delete_by_ids (IdsParams.mk name ids)
          (Env.mk (.ok a) (.ok ()) (.ok r))).1
        = textEnvelope (stringify r)) := by
  refine ⟨?_, ⟨"Vectorize Index \"", "\" deleted successfully.", by simp⟩, ?_, ?_⟩
  · simp [vectorize_index_delete, hf]
  · intro hr
    simp [vectorize_index_delete_by_ids, hf, nullishCoalesce_of_isNullish hr]
  · intro hr
    simp [vectorize_index_delete_by_ids, hf, nullishCoalesce_of_not_isNullish hr]

/-- Witness for C5 with a concrete index name and a present remote body. -/
theorem c5_delete_success_payloads_witness :
    (vectorize_index_delete ("test-idx") (envOkWith (.obj [("mutationId", .str ("m1"))]))).1
      = textEnvelope (stringify (.obj [("success", .bool true),
          ("message", .str ("Vectorize Index \"" ++ ("test-idx") ++ "\" deleted successfully."))])) ∧
    (vectorize_index_delete_by_ids (IdsParams.mk ("test-idx") [("v1")])
        (envOkWith (.obj [("mutationId", .str ("m1"))]))).1
      = textEnvelope (stringify (.obj [("mutationId", .str ("m1"))])) := by
  obtain ⟨h1, -, -, h4⟩ := c5_delete_success_payloads ("test-idx") [("v1")]
    (some ("account-id")) (.obj [("mutationId", .str ("m1"))]) rfl
  exact ⟨h1, h4 rfl⟩

/-- C6 counterexample: a completed remote query call yielding an empty
result set (an object with an empty matches collection and zero count —
non-null) is serialized as-is; the fixed "no results" message is not
substituted. -/
theorem c6_counterexample :
    (vectorize_index_query (QueryParams.mk ("idx") [1, 2] none none none (some 5))
        (envOkWith (.obj [("count", .num 0), ("matches", .arr [])]))).1
      = textEnvelope ("\x7b\"count\":0,\"matches\":[]\x7d") ∧
    textEnvelope ("\x7b\"count\":0,\"matches\":[]\x7d")
      ≠ textEnvelope (stringify (.str ("Query executed, but no results returned."))) := by
  constructor <;> decide

/-- C6 (amended): the query handler substitutes the fixed "no results"
message exactly when the completed remote result is nullish
(null/undefined); every non-nullish result — a non-null empty result set
included — is serialized as-is. -/
theorem c6_nullish_substitution (p : QueryParams) (a : Option String)
    (r : JSValue) (hf : accountFalsy a = false) :
    (isNullish r = true →
      (vectorize_index_query p (Env.mk (.ok a) (.ok ()) (.ok r))).1
        = textEnvelope (stringify (.str ("Query executed, but no results returned.")))) ∧
    (isNullish r = false →
      (vectorize_index_query p (Env.mk (.ok a) (.ok ()) (.ok r))).1
        = textEnvelope (stringify r)) := by
  constructor
  · intro hr
    simp [vectorize_index_query, hf, nullishCoalesce_of_isNullish hr]
  · intro hr
    simp [vectorize_index_query, hf, nullishCoalesce_of_not_isNullish hr]

/-- Witness for C6 at a concrete null remote result. -/
theorem c6_nullish_substitution_witness :
    (vectorize_index_query (QueryParams.mk ("idx") [1, 2] none none none (some 5))
        (envOkWith JSValue.null)).1
      = textEnvelope (stringify (.str ("Query executed, but no results returned."))) :=
  (c6_nullish_substitution (QueryParams.mk ("idx") [1, 2] none none none (some 5))
    (some ("account-id")) JSValue.null rfl).1 rfl

/-- C7: the list handler's success envelope is exactly the JSON
serialization of whatever the remote call yields — empty collections and
falsy values included — with no fallback substitution.  (A top-level
`undefined` result, on which the real `JSON.stringify` produces no string
at all, is excluded as degenerate.) -/
theorem c7_list_serializes_result (p : VectorizeListParams) (a : Option String)
    (r : JSValue) (hf : accountFalsy a = false) (_hr : r ≠ .undef) :
    (vectorize_index_list p (Env.mk (.ok a) (.ok ()) (.ok r))).1
      = textEnvelope (stringify r) := by
  simp [vectorize_index_list, hf]

/-- Witness for C7 at an empty remote collection: the envelope is the
serialized empty array, not a fallback sentence. -/
theorem c7_list_serializes_result_witness :
    (vectorize_index_list (VectorizeListParams.mk JSOpt.undef JSOpt.undef JSOpt.undef JSOpt.undef)
        (envOkWith (.arr []))).1 = textEnvelope (stringify (.arr [])) :=
  c7_list_serializes_result
    (VectorizeListParams.mk JSOpt.undef JSOpt.undef JSOpt.undef JSOpt.undef)
    (some ("account-id")) (.arr []) rfl (fun h => JSValue.noConfusion h)

/-- C8: whenever the list handler issues its remote call, the query object
it passes is exactly `buildListQuery` of the validated parameters: each
provided value is carried through unchanged, and an absent (`undefined`) or
explicit-`null` parameter becomes `undefined` — never a forwarded explicit
null. -/
theorem c8_list_query_fields :
    (∀ (p : VectorizeListParams) (env : Env) (q : ListQuery),
        (vectorize_index_list p env).2 = some q → q = buildListQuery p) ∧
    (∀ p : VectorizeListParams,
        (buildListQuery p).page = jsOrUndef p.page ∧
        (buildListQuery p).per_page = jsOrUndef p.per_page ∧
        (buildListQuery p).order = jsOrUndef p.order ∧
        (buildListQuery p).direction = jsOrUndef p.direction) ∧
    (∀ v : ℚ, jsOrUndef (JSOpt.val v) = JSOpt.val v) ∧
    (∀ s : String, jsOrUndef (JSOpt.val s) = JSOpt.val s) ∧
    (jsOrUndef (JSOpt.null : JSOpt ℚ) = JSOpt.undef) ∧
    (jsOrUndef (JSOpt.null : JSOpt String) = JSOpt.undef) ∧
    (jsOrUndef (JSOpt.undef : JSOpt ℚ) = JSOpt.undef) ∧
    (jsOrUndef (JSOpt.undef : JSOpt String) = JSOpt.undef) ∧
    (∀ p : VectorizeListParams,
        JSOpt.isExplicitNull (buildListQuery p).page = false ∧
        JSOpt.isExplicitNull (buildListQuery p).per_page = false ∧
        JSOpt.isExplicitNull (buildListQuery p).order = false ∧
        JSOpt.isExplicitNull (buildListQuery p).direction = false) := by
  refine ⟨?_, fun p => ⟨rfl, rfl, rfl, rfl⟩, fun v => rfl, fun s => rfl, rfl, rfl, rfl, rfl,
    fun p => ⟨isExplicitNull_jsOrUndef _, isExplicitNull_jsOrUndef _,
      isExplicitNull_jsOrUndef _, isExplicitNull_jsOrUndef _⟩⟩
  intro p env q h
  obtain ⟨acct, cl, rem⟩ := env
  rcases acct with e0 | a
  · simp [vectorize_index_list] at h
  · by_cases hf : accountFalsy a = true
    · simp [vectorize_index_list, hf] at h
    · rcases cl with e1 | ⟨⟩
      · simp [vectorize_index_list, hf] at h
      · rcases rem with e2 | r <;>
        · simp [vectorize_index_list, hf] at h
          exact h.symm

/-- Witness for C8 at the spec's scenario (`page=2, per_page=10,
order="name", direction="desc"`) and at null/absent parameters. -/
theorem c8_list_query_fields_witness :
    ListQuery.mk (JSOpt.val 2) (JSOpt.val 10) (JSOpt.val ("name")) (JSOpt.val ("desc"))
      = buildListQuery (VectorizeListParams.mk (JSOpt.val 2) (JSOpt.val 10)
          (JSOpt.val ("name")) (JSOpt.val ("desc"))) ∧
    JSOpt.isExplicitNull (buildListQuery (VectorizeListParams.mk JSOpt.null JSOpt.undef
        JSOpt.null JSOpt.undef)).page = false := by
  constructor
  · exact c8_list_query_fields.1 (VectorizeListParams.mk (JSOpt.val 2) (JSOpt.val 10)
      (JSOpt.val ("name")) (JSOpt.val ("desc"))) (envOkWith (.arr [])) _ rfl
  · exact (c8_list_query_fields.2.2.2.2.2.2.2.2
      (VectorizeListParams.mk JSOpt.null JSOpt.undef JSOpt.null JSOpt.undef)).1

/-- C9: an empty NDJSON body string fails `VectorizeNdjsonBodySchema`, so
an insert or upsert tool invocation carrying it is rejected at parameter
validation and the remote call is never issued, whatever the other raw
arguments and the environment. -/
theorem c9_empty_ndjson_rejected (rawName rawBehavior : JSValue) (env : Env) :
    accepts (invoke_vectorize_index_insert rawName (.str ("")) rawBehavior env) = false ∧
    remoteCalledE (invoke_vectorize_index_insert rawName (.str ("")) rawBehavior env) = false ∧
    accepts (invoke_vectorize_index_upsert rawName (.str ("")) rawBehavior env) = false ∧
    remoteCalledE (invoke_vectorize_index_upsert rawName (.str ("")) rawBehavior env) = false ∧
    VectorizeNdjsonBodySchema (.str (""))
      = .error [ZodIssue.tooSmall 1 ("NDJSON body cannot be empty.")] := by
  have hb : VectorizeNdjsonBodySchema (.str (""))
      = .error [ZodIssue.tooSmall 1 ("NDJSON body cannot be empty.")] := rfl
  refine ⟨?_, ?_, ?_, ?_, hb⟩ <;>
  · rcases hn : VectorizeIndexNameSchema rawName with e | n <;>
      simp [invoke_vectorize_index_insert, invoke_vectorize_index_upsert, hn, hb,
        accepts, remoteCalledE]

/-- C10: the catch branch is total over arbitrary thrown values — an
`Error` instance contributes its message, any other thrown value its string
coercion — and for every fault each handler returns the well-formed
single-text-block head-plus-description envelope. -/
theorem c10_thrown_value_branch_total :
    (∀ m, describeError (.errorInstance m) = m) ∧
    (∀ s, describeError (.nonErrorValue s) = s) ∧
    (∀ (env : Env) (e : ThrownValue), envFault env = some e →
      (∀ p : CreateParams, (vectorize_index_create p env).1
          = textEnvelope (createErrorLead ++ describeError e) ∧
        envelopeWellFormed (vectorize_index_create p env).1 = true) ∧
      (∀ p : VectorizeListParams, (vectorize_index_list p env).1
          = textEnvelope (listErrorLead ++ describeError e) ∧
        envelopeWellFormed (vectorize_index_list p env).1 = true) ∧
      (∀ name : String, (vectorize_index_get name env).1
          = textEnvelope (getErrorLead name ++ describeError e) ∧
        envelopeWellFormed (vectorize_index_get name env).1 = true) ∧
      (∀ name : String, (vectorize_index_delete name env).1
          = textEnvelope (deleteErrorLead name ++ describeError e) ∧
        envelopeWellFormed (vectorize_index_delete name env).1 = true) ∧
      (∀ name : String, (vectorize_index_info name env).1
          = textEnvelope (infoErrorLead name ++ describeError e) ∧
        envelopeWellFormed (vectorize_index_info name env).1 = true) ∧
      (∀ p : InsertParams, (vectorize_index_insert p env).1
          = textEnvelope (insertErrorLead p.name ++ describeError e) ∧
        envelopeWellFormed (vectorize_index_insert p env).1 = true) ∧
      (∀ p : InsertParams, (vectorize_index_upsert p env).1
          = textEnvelope (upsertErrorLead p.name ++ describeError e) ∧
        envelopeWellFormed (vectorize_index_upsert p env).1 = true) ∧
      (∀ p : QueryParams, (vectorize_index_query p env).1
          = textEnvelope (queryErrorLead p.name ++ describeError e) ∧
        envelopeWellFormed (vectorize_index_query p env).1 = true) ∧
      (∀ p : IdsParams, (vectorize_index_get_by_ids p env).1
          = textEnvelope (getByIdsErrorLead p.name ++ describeError e) ∧
        envelopeWellFormed (vectorize_index_get_by_ids p env).1 = true) ∧
      (∀ p : IdsParams, (vectorize_index_delete_by_ids p env).1
          = textEnvelope (deleteByIdsErrorLead p.name ++ describeError e) ∧
        envelopeWellFormed (vectorize_index_delete_by_ids p env).1 = true)) := by
  refine ⟨fun m => rfl, fun s => rfl, ?_⟩
  intro env e h
  exact ⟨fun p => ⟨create_fault_text p env e h, create_wellformed p env⟩,
    fun p => ⟨list_fault_text p env e h, list_wellformed p env⟩,
    fun n => ⟨get_fault_text n env e h, get_wellformed n env⟩,
    fun n => ⟨delete_fault_text n env e h, delete_wellformed n env⟩,
    fun n => ⟨info_fault_text n env e h, info_wellformed n env⟩,
    fun p => ⟨insert_fault_text p env e h, insert_wellformed p env⟩,
    fun p => ⟨upsert_fault_text p env e h, upsert_wellformed p env⟩,
    fun p => ⟨query_fault_text p env e h, query_wellformed p env⟩,
    fun p => ⟨get_by_ids_fault_text p env e h, get_by_ids_wellformed p env⟩,
    fun p => ⟨delete_by_ids_fault_text p env e h, delete_by_ids_wellformed p env⟩⟩

/-- Witness for C10 at a thrown non-Error value (a string coercion of a
plain object). -/
theorem c10_thrown_value_branch_total_witness :
    (vectorize_index_create (CreateParams.mk ("test-idx") (.obj []) none)
        (envRemoteFault (.nonErrorValue ("[object Object]")))).1
      = textEnvelope (createErrorLead ++ describeError (.nonErrorValue ("[object Object]"))) ∧
    envelopeWellFormed (vectorize_index_create (CreateParams.mk ("test-idx") (.obj []) none)
        (envRemoteFault (.nonErrorValue ("[object Object]")))).1 = true :=
  (c10_thrown_value_branch_total.2.2 (envRemoteFault (.nonErrorValue ("[object Object]")))
    (.nonErrorValue ("[object Object]")) rfl).1 (CreateParams.mk ("test-idx") (.obj []) none)

end McpVectorize
